import Mathlib

/-!
Shallow embedding of UltraGrid's video-capture registry (src/video_capture.c)
and of the libavformat file capture backend (src/video_capture/file.c).

Conventions used throughout:
* C `int`/`int64_t` quantities are modelled as `Int` (values in the claims are
  far from overflow), C `double` quantities as `Rat`; the final conversion of a
  `double` expression to an integer argument truncates toward zero, modelled by
  `ratTrunc`.  At every concrete input evaluated below the IEEE-754 double
  computation and the exact rational computation agree.
* pointers returned to callers are opaque `Nat` identifiers; a NULL result is
  `Option.none`.
* video frames in the bounded frame queue are opaque `Nat` identifiers; the
  queue is a `List` with append at the tail (`simple_linked_list_append`) and
  removal at the head (`simple_linked_list_pop`).
* condition-variable signals are recorded as explicit `Bool` fields of the
  result of the step that performs them.
-/

namespace UltraGrid

/-- Truncation toward zero, the C conversion of a `double` to an integer. -/
def ratTrunc (q : ℚ) : ℤ := if 0 ≤ q then ⌊q⌋ else ⌈q⌉

/-- Constant 1.05 from file.c line 86 (ratio by which the audio frame can be
longer than the video frame), as an exact rational. -/
def audio_ratio_q : ℚ := 21 / 20

/-- Fields of `struct audio_frame` used by the file backend's audio ring
buffer (file.c): bytes per sample, sample rate, channel count, current byte
length and hard capacity.  Byte contents are irrelevant to the claims. -/
structure audio_frame_t where
  bps : ℤ
  sample_rate : ℤ
  ch_count : ℤ
  data_len : ℤ
  max_size : ℤ
deriving DecidableEq

/-- Audio frame state with every field zero: the state of `s->audio_frame`
when audio was not requested (the struct is `calloc`ed in vidcap_file_init and
never written, since `audio_stream_idx` stays -1). -/
def zero_audio_frame : audio_frame_t :=
  { bps := 0, sample_rate := 0, ch_count := 0, data_len := 0, max_size := 0 }

/-- State of `struct vidcap_state_lavf_decoder` (file.c lines 91-128)
restricted to the fields the claims depend on.  `pos` models the demuxer
position requested from `avformat_seek_file`; `fmt_start_time` is
`s->fmt_ctx->start_time` and `start_time` is the video stream's
`st->start_time`. -/
structure FileState where
  video_frame_queue : List ℕ
  max_queue_len : ℤ
  failed : Bool
  loop : Bool
  paused : Bool
  use_audio : Bool
  should_exit : Bool
  fps : ℚ
  tb_num : ℤ
  tb_den : ℤ
  start_time : ℤ
  fmt_start_time : ℤ
  last_vid_pts : ℤ
  audio_frame : audio_frame_t
  pos : ℤ
deriving DecidableEq

/-- Control message as dispatched by vidcap_file_process_messages
(file.c lines 227-250) after the textual tests: `strstr(text, "seek ")`
with the strtol value `n` and whether the character after the number is `s`;
`"pause"`; `"quit"`; or any other text. -/
inductive CtrlMsg where
  | seek (n : ℤ) (seconds_form : Bool)
  | pause
  | quit
  | unknown
deriving DecidableEq

/-- Reply sent by free_message for one processed control message. -/
inductive Response where
  | ok
  | bad_request
deriving DecidableEq

/-- Seek target handed to `avformat_seek_file` (file.c line 236):
`sec` is the parsed number, divided by `s->video_desc.fps` unless the `s`
suffix is present (line 231-233), and the target is
`st->start_time + s->last_vid_pts + sec * tb.den / tb.num`, truncated when the
`double` expression is converted to the `int64_t` parameter. -/
def computeSeekTarget (s : FileState) (n : ℤ) (seconds_form : Bool) : ℤ :=
  let sec : ℚ := if seconds_form then (n : ℚ) else (n : ℚ) / s.fps
  ratTrunc ((s.start_time : ℚ) + (s.last_vid_pts : ℚ) + sec * (s.tb_den : ℚ) / (s.tb_num : ℚ))

/-- One message of vidcap_file_process_messages (file.c lines 227-252):
seek requests a reposition to `computeSeekTarget`, pause flips the paused
flag, quit delegates shutdown (`exit_uv`, external), anything else leaves the
state unchanged and is answered RESPONSE_BAD_REQUEST. -/
def processMessage (s : FileState) (m : CtrlMsg) : FileState × Response :=
  match m with
  | .seek n seconds_form => ({ s with pos := computeSeekTarget s n seconds_form }, .ok)
  | .pause => ({ s with paused := !s.paused }, .ok)
  | .quit => (s, .ok)
  | .unknown => (s, .bad_request)

/-- Whole message-queue drain of vidcap_file_process_messages: messages are
applied in delivery order. -/
def processMessages (s : FileState) (ms : List CtrlMsg) : FileState :=
  ms.foldl (fun st m => (processMessage st m).1) s

theorem processMessages_cons (s : FileState) (m : CtrlMsg) (ms : List CtrlMsg) :
    processMessages s (m :: ms) = processMessages (processMessage s m).1 ms := rfl

theorem ratTrunc_intCast (m : ℤ) : ratTrunc (m : ℚ) = m := by
  unfold ratTrunc
  split <;> simp

/-- Helper: paused flag after a run of k pause messages. -/
theorem processMessages_replicate_pause (k : ℕ) :
    ∀ s : FileState,
      (processMessages s (List.replicate k CtrlMsg.pause)).paused
        = if k % 2 = 0 then s.paused else !s.paused := by
  induction k with
  | zero => intro s; simp [processMessages]
  | succ n ih =>
    intro s
    rw [List.replicate_succ, processMessages_cons]
    rw [ih]
    have h2 : (n + 1) % 2 = 0 ↔ ¬ (n % 2 = 0) := by omega
    rcases Nat.mod_two_eq_zero_or_one n with h | h
    · have : (n + 1) % 2 = 1 := by omega
      simp [h, this, processMessage]
    · have : (n + 1) % 2 = 0 := by omega
      simp [h, this, processMessage]

/-- C9: each "pause" control message flips the paused flag
(file.c lines 241-243), so after an even number of pause messages the flag
equals its initial value and after an odd number it is inverted. -/
theorem C9_pause_toggle (s : FileState) (k : ℕ) :
    (processMessage s CtrlMsg.pause).1.paused = !s.paused ∧
    (processMessages s (List.replicate k CtrlMsg.pause)).paused
      = (if k % 2 = 0 then s.paused else !s.paused) := by
  constructor
  · rfl
  · exact processMessages_replicate_pause k s

/-- C2: the reposition target of a "seek <n>s" message is
stream_start + last_returned_pts + n seconds converted through the stream
time base, and of a "seek <n>" message the same with offset n / fps seconds
(file.c lines 227-236); with fps = 25, time base 1/90000 and last returned
pts 450000, both "seek 2s" and "seek 50" target stream_start + 630000. -/
theorem C2_seek_arithmetic (s : FileState) (n : ℤ)
    (hfps : s.fps = 25) (hnum : s.tb_num = 1) (hden : s.tb_den = 90000)
    (hpts : s.last_vid_pts = 450000) :
    ((processMessage s (CtrlMsg.seek n true)).1.pos = computeSeekTarget s n true) ∧
    (computeSeekTarget s n true
        = ratTrunc ((s.start_time : ℚ) + (s.last_vid_pts : ℚ)
            + (n : ℚ) * (s.tb_den : ℚ) / (s.tb_num : ℚ))) ∧
    (computeSeekTarget s n false
        = ratTrunc ((s.start_time : ℚ) + (s.last_vid_pts : ℚ)
            + ((n : ℚ) / s.fps) * (s.tb_den : ℚ) / (s.tb_num : ℚ))) ∧
    (computeSeekTarget s 2 true = s.start_time + 630000) ∧
    (computeSeekTarget s 50 false = s.start_time + 630000) := by
  refine ⟨rfl, rfl, rfl, ?_, ?_⟩
  · have e1 : computeSeekTarget s 2 true
        = ratTrunc ((s.start_time : ℚ) + (s.last_vid_pts : ℚ)
            + ((2 : ℤ) : ℚ) * (s.tb_den : ℚ) / (s.tb_num : ℚ)) := rfl
    rw [e1, hnum, hden, hpts]
    have e2 : ((s.start_time : ℚ) + ((450000 : ℤ) : ℚ)
          + ((2 : ℤ) : ℚ) * ((90000 : ℤ) : ℚ) / ((1 : ℤ) : ℚ))
        = ((s.start_time + 630000 : ℤ) : ℚ) := by push_cast; ring
    rw [e2, ratTrunc_intCast]
  · have e1 : computeSeekTarget s 50 false
        = ratTrunc ((s.start_time : ℚ) + (s.last_vid_pts : ℚ)
            + ((50 : ℤ) : ℚ) / s.fps * (s.tb_den : ℚ) / (s.tb_num : ℚ)) := rfl
    rw [e1, hfps, hnum, hden, hpts]
    have e2 : ((s.start_time : ℚ) + ((450000 : ℤ) : ℚ)
          + ((50 : ℤ) : ℚ) / 25 * ((90000 : ℤ) : ℚ) / ((1 : ℤ) : ℚ))
        = ((s.start_time + 630000 : ℤ) : ℚ) := by push_cast; ring
    rw [e2, ratTrunc_intCast]

/-- Witness for C2 at a fully concrete state. -/
def c2_state : FileState :=
  { video_frame_queue := [], max_queue_len := 1, failed := false, loop := false,
    paused := false, use_audio := false, should_exit := false, fps := 25,
    tb_num := 1, tb_den := 90000, start_time := 1000, fmt_start_time := 0,
    last_vid_pts := 450000, audio_frame := zero_audio_frame, pos := 0 }

theorem C2_seek_arithmetic_witness :
    computeSeekTarget c2_state 2 true = 631000 ∧
    computeSeekTarget c2_state 50 false = 631000 := by
  have h := C2_seek_arithmetic c2_state 2 rfl rfl rfl rfl
  have h' := C2_seek_arithmetic c2_state 50 rfl rfl rfl rfl
  exact ⟨h.2.2.2.1, h'.2.2.2.2⟩

/-- Byte count sliced off by get_audio (file.c line 661):
`MIN((int)(AUDIO_RATIO * ret->sample_rate / video_fps) * ret->bps * ret->ch_count,
s->audio_frame.data_len)`.  The C cast `(int)` truncates the double toward
zero. -/
def audioSliceLen (af : audio_frame_t) (video_fps : ℚ) : ℤ :=
  min (ratTrunc (audio_ratio_q * (af.sample_rate : ℚ) / video_fps) * af.bps * af.ch_count)
    af.data_len

/-- get_audio (file.c lines 651-672): returns a fresh audio frame whose
data_len and max_size equal `audioSliceLen`, removes that prefix from the
ring buffer and shifts the remainder down.  First component is the returned
frame, second the updated backend state. -/
def get_audio (s : FileState) (video_fps : ℚ) : audio_frame_t × FileState :=
  let len := audioSliceLen s.audio_frame video_fps
  ({ s.audio_frame with data_len := len, max_size := len },
   { s with audio_frame := { s.audio_frame with data_len := s.audio_frame.data_len - len } })

/-- Result of one completed vidcap_file_grab call: the returned video frame
(NULL = none), the value stored through the `audio` out-parameter on return
(the function stores NULL on entry, file.c line 679), the state after the
call, and whether frame_consumed was signalled. -/
structure GrabResult where
  frame : Option ℕ
  audio : Option audio_frame_t
  state : FileState
  signaled_frame_consumed : Bool
deriving DecidableEq

/-- A grab call either parks on new_frame_ready (the wait condition of
file.c line 681 holds) or completes with a GrabResult. -/
inductive GrabStep where
  | blocked
  | result (r : GrabResult)
deriving DecidableEq

/-- Wait condition of the consumer (file.c line 681): queue empty and the
worker neither failed nor told to exit. -/
def grabWaitGuard (s : FileState) : Bool :=
  s.video_frame_queue.isEmpty && !s.failed && !s.should_exit

/-- vidcap_file_grab (file.c lines 674-701) observed at the lock: while the
wait guard holds the call is blocked; once it does not hold, a failed or
exiting worker makes the call return NULL with the audio out-parameter still
NULL and without popping; otherwise the head of the queue (the oldest frame,
appends go to the tail) is popped, frame_consumed is signalled and the audio
out-parameter is set to the get_audio slice (the popped frame's fps equals
`s->video_desc.fps` since every queued frame is allocated from
`s->video_desc`). -/
def vidcap_file_grab (s : FileState) : GrabStep :=
  if grabWaitGuard s then .blocked
  else if s.failed || s.should_exit then .result ⟨none, none, s, false⟩
  else
    match s.video_frame_queue with
    | [] => .blocked
    | f :: rest =>
      let ga := get_audio { s with video_frame_queue := rest } s.fps
      .result ⟨some f, some ga.1, ga.2, true⟩

/-- State and signal produced by the FAIL_WORKER macro (file.c line 256):
failed is set under the lock and new_frame_ready is signalled, then the
worker returns. -/
structure WorkerExit where
  state : FileState
  signaled_new_frame_ready : Bool
deriving DecidableEq

def failWorker (s : FileState) : WorkerExit :=
  ⟨{ s with failed := true }, true⟩

/-- Outcome of the worker's handling of one av_read_frame result. -/
inductive ReadOutcome where
  | cont (s : FileState)
  | worker_failed (w : WorkerExit)
deriving DecidableEq

/-- Worker handling of a non-frame av_read_frame result (file.c lines
283-293): on AVERROR_EOF with loop enabled the format context is repositioned
to `s->fmt_ctx->start_time` (failing the worker if that seek fails) and the
loop continues; on EOF with loop disabled `s->paused` is set and the loop
continues; any other error fails the worker via FAIL_WORKER. -/
def handleReadEnd (s : FileState) (is_eof : Bool) (seek_ok : Bool) : ReadOutcome :=
  if is_eof then
    if s.loop then
      if seek_ok then .cont { s with pos := s.fmt_start_time }
      else .worker_failed (failWorker s)
    else .cont { s with paused := true }
  else .worker_failed (failWorker s)

/-- Producer-side wait condition (file.c line 385): the worker waits on
frame_consumed while should_exit is unset and the queue is strictly longer
than max_queue_len. -/
def enqueueWaitGuard (s : FileState) : Bool :=
  !s.should_exit && decide ((s.max_queue_len : ℤ) < (s.video_frame_queue.length : ℤ))

/-- Outcome of the enqueue section of the worker (file.c lines 384-397). -/
inductive EnqueueOutcome where
  | exited (s : FileState)
  | appended (s : FileState) (signaled_new_frame_ready : Bool)
deriving DecidableEq

/-- Enqueue of one decoded video frame after the backpressure wait has exited
(file.c lines 384-397): callers guarantee the negation of `enqueueWaitGuard`;
if should_exit is set the frame is disposed and the worker returns, otherwise
the frame is appended at the tail and new_frame_ready is signalled. -/
def enqueueFrame (s : FileState) (out : ℕ) : EnqueueOutcome :=
  if s.should_exit then .exited s
  else .appended { s with video_frame_queue := s.video_frame_queue ++ [out] } true

/-- Helper: a grab call is parked exactly while the wait condition of
file.c line 681 holds. -/
theorem grab_blocked_iff (s : FileState) :
    vidcap_file_grab s = .blocked ↔ grabWaitGuard s = true := by
  cases hq : s.video_frame_queue <;> cases hf : s.failed <;> cases he : s.should_exit <;>
    simp [vidcap_file_grab, grabWaitGuard, hq, hf, he]

/-- Helper: a failed or exiting worker makes grab return NULL without
popping, with the audio out-parameter still NULL. -/
theorem grab_failed_or_exit (s : FileState) (h : s.failed = true ∨ s.should_exit = true) :
    vidcap_file_grab s = .result ⟨none, none, s, false⟩ := by
  rcases h with h | h <;> cases hq : s.video_frame_queue <;>
    simp [vidcap_file_grab, grabWaitGuard, h, hq]

/-- Helper: with a live worker and a non-empty queue, grab pops the head,
signals frame_consumed and pairs the frame with the audio slice. -/
theorem grab_pop (s : FileState) (f : ℕ) (rest : List ℕ)
    (hf : s.failed = false) (he : s.should_exit = false)
    (hq : s.video_frame_queue = f :: rest) :
    vidcap_file_grab s =
      .result ⟨some f,
        some (get_audio { s with video_frame_queue := rest } s.fps).1,
        (get_audio { s with video_frame_queue := rest } s.fps).2, true⟩ := by
  simp [vidcap_file_grab, grabWaitGuard, hf, he, hq]

/-- C5: grab blocks exactly while the queue is empty and the worker is
neither failed nor exiting; when failed or exiting it returns NULL without
popping; otherwise it pops the oldest (head) frame and signals
frame_consumed; a fatal worker error (FAIL_WORKER) marks the worker failed
and signals new_frame_ready, after which every grab returns no frame. -/
theorem C5_grab_contract (s : FileState) (f : ℕ) (rest : List ℕ) :
    (vidcap_file_grab s = .blocked ↔ grabWaitGuard s = true) ∧
    ((s.failed = true ∨ s.should_exit = true) →
        vidcap_file_grab s = .result ⟨none, none, s, false⟩) ∧
    (s.failed = false → s.should_exit = false → s.video_frame_queue = f :: rest →
        vidcap_file_grab s =
          .result ⟨some f,
            some (get_audio { s with video_frame_queue := rest } s.fps).1,
            (get_audio { s with video_frame_queue := rest } s.fps).2, true⟩) ∧
    ((failWorker s).state.failed = true ∧ (failWorker s).signaled_new_frame_ready = true) ∧
    (s.failed = true → vidcap_file_grab s = .result ⟨none, none, s, false⟩) :=
  ⟨grab_blocked_iff s,
   grab_failed_or_exit s,
   grab_pop s f rest,
   ⟨rfl, rfl⟩,
   fun hf => grab_failed_or_exit s (Or.inl hf)⟩

/-- Fully concrete state whose worker has failed. -/
def c5_failed_state : FileState :=
  { video_frame_queue := [3, 4], max_queue_len := 1, failed := true, loop := false,
    paused := false, use_audio := false, should_exit := false, fps := 25,
    tb_num := 1, tb_den := 90000, start_time := 0, fmt_start_time := 0,
    last_vid_pts := 0, audio_frame := zero_audio_frame, pos := 0 }

theorem C5_grab_contract_witness :
    vidcap_file_grab c5_failed_state = .result ⟨none, none, c5_failed_state, false⟩ :=
  (C5_grab_contract c5_failed_state 0 []).2.1 (Or.inl rfl)

/-- C6: on AVERROR_EOF the worker repositions the source to the container
start and continues when loop is set (given the seek succeeded), and
otherwise sets the paused flag and continues; in the latter state a grab on
an empty queue is blocked rather than returning an error. -/
theorem C6_end_of_stream (s : FileState) (seek_ok : Bool) :
    (s.loop = true → seek_ok = true →
        handleReadEnd s true seek_ok = .cont { s with pos := s.fmt_start_time }) ∧
    (s.loop = false →
        handleReadEnd s true seek_ok = .cont { s with paused := true }) ∧
    (s.loop = false → s.failed = false → s.should_exit = false →
        s.video_frame_queue = [] →
        vidcap_file_grab { s with paused := true } = .blocked) := by
  refine ⟨?_, ?_, ?_⟩
  · intro hl hs; simp [handleReadEnd, hl, hs]
  · intro hl; simp [handleReadEnd, hl]
  · intro _ hf he hq
    simp [vidcap_file_grab, grabWaitGuard, hf, he, hq]

/-- Fully concrete non-looping state at end of stream. -/
def c6_state : FileState :=
  { video_frame_queue := [], max_queue_len := 1, failed := false, loop := false,
    paused := false, use_audio := false, should_exit := false, fps := 25,
    tb_num := 1, tb_den := 90000, start_time := 0, fmt_start_time := 0,
    last_vid_pts := 0, audio_frame := zero_audio_frame, pos := 0 }

theorem C6_end_of_stream_witness :
    handleReadEnd c6_state true true = .cont { c6_state with paused := true } ∧
    vidcap_file_grab { c6_state with paused := true } = .blocked :=
  ⟨(C6_end_of_stream c6_state true).2.1 rfl,
   (C6_end_of_stream c6_state true).2.2 rfl rfl rfl rfl⟩

/-- Concrete state used against C1: bound N = 1 and one frame already
queued, worker not exiting. -/
def c1_state : FileState :=
  { video_frame_queue := [10], max_queue_len := 1, failed := false, loop := false,
    paused := false, use_audio := false, should_exit := false, fps := 25,
    tb_num := 1, tb_den := 90000, start_time := 0, fmt_start_time := 0,
    last_vid_pts := 0, audio_frame := zero_audio_frame, pos := 0 }

/-- C1 counterexample: with bound N = 1 and one frame queued the producer
wait condition (file.c line 385, strictly-greater comparison) does not hold,
so the worker appends a second frame and the queue length right after the
append is 2 > N. -/
theorem C1_queue_bound_counterexample :
    enqueueWaitGuard c1_state = false ∧
    enqueueFrame c1_state 11
      = .appended { c1_state with video_frame_queue := [10, 11] } true ∧
    ¬ ((({ c1_state with video_frame_queue := [10, 11] } : FileState).video_frame_queue.length : ℤ)
        ≤ c1_state.max_queue_len) := by
  refine ⟨rfl, rfl, ?_⟩
  decide

/-- C1 amended: the producer waits on frame_consumed exactly while the queue
is strictly longer than max_queue_len (and should_exit is unset), so
immediately after an append completes the queue length is at most
max_queue_len + 1. -/
theorem C1_queue_bound_amended (s : FileState) (out : ℕ) (s' : FileState) (sig : Bool) :
    (enqueueWaitGuard s = true
        ↔ (s.should_exit = false ∧ s.max_queue_len < (s.video_frame_queue.length : ℤ))) ∧
    (enqueueWaitGuard s = false → enqueueFrame s out = .appended s' sig →
        (s'.video_frame_queue.length : ℤ) ≤ s.max_queue_len + 1) := by
  constructor
  · cases he : s.should_exit <;>
      simp [enqueueWaitGuard, he]
  · intro hg happ
    unfold enqueueFrame at happ
    by_cases he : s.should_exit = true
    · rw [if_pos he] at happ
      exact absurd happ (by simp)
    · have he' : s.should_exit = false := by simpa using he
      rw [if_neg he] at happ
      injection happ with h1 _
      have hq : s'.video_frame_queue = s.video_frame_queue ++ [out] := by rw [← h1]
      have hlen : ¬ (s.max_queue_len < (s.video_frame_queue.length : ℤ)) := by
        intro hc
        have ht : enqueueWaitGuard s = true := by simp [enqueueWaitGuard, he', hc]
        rw [ht] at hg
        cases hg
      rw [hq]
      simp only [List.length_append, List.length_cons, List.length_nil]
      push_cast
      omega

/-- Concrete empty-queue state for the C1 witness. -/
def c1w_state : FileState :=
  { c1_state with video_frame_queue := [] }

theorem C1_queue_bound_witness :
    ((({ c1w_state with video_frame_queue := [5] } : FileState).video_frame_queue.length : ℤ)
        ≤ c1w_state.max_queue_len + 1) :=
  (C1_queue_bound_amended c1w_state 5 { c1w_state with video_frame_queue := [5] } true).2
    rfl rfl

/-- Helper: the slice of an all-zero audio buffer is empty, whatever the
frame rate. -/
theorem audioSliceLen_zero (q : ℚ) : audioSliceLen zero_audio_frame q = 0 := by
  simp [audioSliceLen, zero_audio_frame, ratTrunc]

/-- Audio buffer state used against C4: parameters of the spec's concrete
instance (48 kHz, 16-bit stereo) with 96000 bytes buffered. -/
def c4_af : audio_frame_t :=
  { bps := 2, sample_rate := 48000, ch_count := 2, data_len := 96000,
    max_size := 192000 }

/-- C4 counterexample: at fps = 25, 48 kHz, 2 bytes per sample, 2 channels,
the byte count requested by get_audio is
(int)(1.05 * 48000 / 25) * 2 * 2 = 8064, which exceeds the claimed bound of
4036; moreover the code truncates where the claim takes a ceiling, and at
fps = 11 (mono, one byte per sample) truncation gives 4581 while the claimed
ceiling formula gives 4582. -/
theorem C4_audio_slice_counterexample :
    audioSliceLen c4_af 25 = 8064 ∧
    ¬ (audioSliceLen c4_af 25 ≤ 4036) ∧
    audioSliceLen { c4_af with bps := 1, ch_count := 1 } 11 = 4581 ∧
    ⌈audio_ratio_q * ((48000 : ℤ) : ℚ) / 11⌉ * 1 * 1 = 4582 := by
  have h1 : audio_ratio_q * ((48000 : ℤ) : ℚ) / 25 = ((2016 : ℤ) : ℚ) := by
    norm_num [audio_ratio_q]
  have t1 : ratTrunc (audio_ratio_q * ((48000 : ℤ) : ℚ) / 25) = 2016 := by
    rw [h1, ratTrunc_intCast]
  have t2 : ratTrunc (audio_ratio_q * ((48000 : ℤ) : ℚ) / 11) = 4581 := by
    unfold ratTrunc
    rw [if_pos (by norm_num [audio_ratio_q])]
    rw [Int.floor_eq_iff]
    constructor <;> norm_num [audio_ratio_q]
  have t3 : ⌈audio_ratio_q * ((48000 : ℤ) : ℚ) / 11⌉ = 4582 := by
    rw [Int.ceil_eq_iff]
    constructor <;> norm_num [audio_ratio_q]
  refine ⟨?_, ?_, ?_, ?_⟩
  · show min (ratTrunc (audio_ratio_q * ((48000 : ℤ) : ℚ) / 25) * 2 * 2) 96000 = 8064
    rw [t1]; norm_num
  · show ¬ (min (ratTrunc (audio_ratio_q * ((48000 : ℤ) : ℚ) / 25) * 2 * 2) 96000 ≤ 4036)
    rw [t1]; norm_num
  · show min (ratTrunc (audio_ratio_q * ((48000 : ℤ) : ℚ) / 11) * 1 * 1) 96000 = 4581
    rw [t2]; norm_num
  · rw [t3]; norm_num

/-- C4 amended: the byte count requested by get_audio equals
(int)(AUDIO_RATIO * sample_rate / fps) * bps * ch_count (truncated, not
rounded up) clamped to the bytes currently buffered — so it never exceeds the
buffered amount — and at fps = 25, 48 kHz, 16-bit stereo it equals
min 8064 data_len, hence is at most 8064 bytes. -/
theorem C4_audio_slice_amended (af : audio_frame_t) (video_fps : ℚ) (s : FileState) :
    audioSliceLen af video_fps ≤ af.data_len ∧
    (af.sample_rate = 48000 → af.bps = 2 → af.ch_count = 2 → video_fps = 25 →
        audioSliceLen af video_fps = min 8064 af.data_len ∧
        audioSliceLen af video_fps ≤ 8064) ∧
    (get_audio s video_fps).1.data_len = audioSliceLen s.audio_frame video_fps ∧
    (get_audio s video_fps).2.audio_frame.data_len
      = s.audio_frame.data_len - audioSliceLen s.audio_frame video_fps := by
  refine ⟨min_le_right _ _, ?_, rfl, rfl⟩
  intro hsr hbps hch hfps
  have h1 : audio_ratio_q * ((48000 : ℤ) : ℚ) / 25 = ((2016 : ℤ) : ℚ) := by
    norm_num [audio_ratio_q]
  have h2 : audioSliceLen af video_fps = min 8064 af.data_len := by
    unfold audioSliceLen
    rw [hsr, hbps, hch, hfps, h1, ratTrunc_intCast]
    norm_num
  exact ⟨h2, h2 ▸ min_le_left _ _⟩

theorem C4_audio_slice_witness :
    audioSliceLen c4_af 25 = min 8064 c4_af.data_len ∧
    audioSliceLen c4_af 25 ≤ c4_af.data_len :=
  ⟨((C4_audio_slice_amended c4_af 25 c6_state).2.1 rfl rfl rfl rfl).1,
   (C4_audio_slice_amended c4_af 25 c6_state).1⟩

/-- Helper: get_audio on the untouched all-zero audio buffer returns an
empty (zero-length) but present audio frame and leaves the state unchanged. -/
theorem get_audio_zero (s : FileState) (q : ℚ)
    (ha : s.audio_frame = zero_audio_frame) :
    get_audio s q = (zero_audio_frame, s) := by
  obtain ⟨q1, q2, q3, q4, q5, q6, q7, q8, q9, q10, q11, q12, q13, af, q15⟩ := s
  simp only at ha
  subst ha
  unfold get_audio
  rw [audioSliceLen_zero]
  simp [zero_audio_frame]

/-- Concrete state used against C7: audio capture was not requested
(use_audio false, zeroed audio buffer), one frame queued, worker live. -/
def c7_state : FileState :=
  { video_frame_queue := [0], max_queue_len := 1, failed := false, loop := false,
    paused := false, use_audio := false, should_exit := false, fps := 25,
    tb_num := 1, tb_den := 90000, start_time := 0, fmt_start_time := 0,
    last_vid_pts := 0, audio_frame := zero_audio_frame, pos := 0 }

/-- C7 counterexample: even though audio capture was not requested,
a successful grab stores a (zero-length) audio frame through the audio
out-parameter (file.c line 692 calls get_audio unconditionally), so the
out-parameter is not left NULL. -/
theorem C7_audio_counterexample :
    c7_state.use_audio = false ∧
    vidcap_file_grab c7_state
      = .result ⟨some 0, some zero_audio_frame,
          { c7_state with video_frame_queue := [] }, true⟩ ∧
    (some zero_audio_frame ≠ (none : Option audio_frame_t)) := by
  refine ⟨rfl, ?_, by simp⟩
  rw [grab_pop c7_state 0 [] rfl rfl rfl, get_audio_zero _ _ rfl]

/-- C7 amended: when audio capture was not requested the audio buffer stays
all-zero, and a successful grab stores a present but empty audio frame
(data_len = 0) through the out-parameter; the out-parameter is left NULL only
when grab returns no video frame (failed or exiting worker). -/
theorem C7_audio_amended (s : FileState) (f : ℕ) (rest : List ℕ)
    (_hu : s.use_audio = false) (ha : s.audio_frame = zero_audio_frame) :
    ((s.failed = true ∨ s.should_exit = true) →
        vidcap_file_grab s = .result ⟨none, none, s, false⟩) ∧
    (s.failed = false → s.should_exit = false → s.video_frame_queue = f :: rest →
        vidcap_file_grab s =
          .result ⟨some f, some zero_audio_frame,
            { s with video_frame_queue := rest, audio_frame := zero_audio_frame },
            true⟩) := by
  refine ⟨grab_failed_or_exit s, ?_⟩
  intro hf he hq
  have ha' : ({ s with video_frame_queue := rest } : FileState).audio_frame
      = zero_audio_frame := ha
  rw [grab_pop s f rest hf he hq, get_audio_zero _ s.fps ha']
  have e : ({ s with video_frame_queue := rest, audio_frame := zero_audio_frame } : FileState)
      = { s with video_frame_queue := rest } := by rw [← ha]
  rw [e]

/-- Concrete failed-worker state with no audio requested, for the C7
witness. -/
def c7w_state : FileState :=
  { c7_state with failed := true }

theorem C7_audio_amended_witness :
    vidcap_file_grab c7w_state = .result ⟨none, none, c7w_state, false⟩ :=
  (C7_audio_amended c7w_state 0 [] rfl rfl).1 (Or.inl rfl)

/-- VIDCAP_MAGIC constant (video_capture.c line 77). -/
def VIDCAP_MAGIC : ℕ := 0x76ae98f0

/-- What a backend's func_init call returned when vidcap_init dispatched it:
a real state pointer (opaque id), the address of the `vidcap_init_noerr`
sentinel, or NULL. -/
inductive BackendInitOutcome where
  | state (st : ℕ)
  | noerr_sentinel
  | null
deriving DecidableEq

/-- One row of vidcap_device_table as it matters to vidcap_init: its id and
what its func_init returns for the call under consideration. -/
structure vidcap_device_api where
  id : ℤ
  init_outcome : BackendInitOutcome
deriving DecidableEq

/-- The opaque capture handle `struct vidcap` (video_capture.c lines 90-94):
backend-private state, table index, integrity tag. -/
structure vidcap where
  state : ℕ
  index : ℕ
  magic : ℕ
deriving DecidableEq

/-- Observable effect of one vidcap_init call: the returned code, the value
written through the caller's `struct vidcap **state` slot (none = slot left
untouched), and how many handle wrappers were malloc'ed and free'd. -/
structure InitCallResult where
  retcode : ℤ
  slot : Option vidcap
  wrappers_allocated : ℕ
  wrappers_freed : ℕ
deriving DecidableEq

/-- vidcap_init (video_capture.c lines 410-438) from table position i on:
the first row whose id matches is dispatched; a wrapper is malloc'ed, magic
and index are set and func_init is called; NULL state frees the wrapper and
returns -1, the noerr sentinel frees the wrapper and returns 1, a real state
is stored through the slot with return 0; if no row matches, -1 is returned
with the slot untouched and nothing allocated. -/
def vidcap_init_from : List vidcap_device_api → ℕ → ℤ → InitCallResult
  | [], _, _ => ⟨-1, none, 0, 0⟩
  | e :: rest, i, id =>
    if e.id = id then
      match e.init_outcome with
      | .state st => ⟨0, some ⟨st, i, VIDCAP_MAGIC⟩, 1, 0⟩
      | .noerr_sentinel => ⟨1, none, 1, 1⟩
      | .null => ⟨-1, none, 1, 1⟩
    else vidcap_init_from rest (i + 1) id

/-- vidcap_init over the whole table. -/
def vidcap_init (table : List vidcap_device_api) (id : ℤ) : InitCallResult :=
  vidcap_init_from table 0 id

/-- Return code the three-outcome contract prescribes for a given lookup
result: -1 when the identity is unknown or func_init returned NULL, 1 for
the noerr sentinel, 0 for a real state. -/
def expected_retcode : Option BackendInitOutcome → ℤ
  | none => -1
  | some (.state _) => 0
  | some .noerr_sentinel => 1
  | some .null => -1

/-- Helper: characterisation of vidcap_init_from for every start index. -/
theorem vidcap_init_from_spec (table : List vidcap_device_api) (id : ℤ) :
    ∀ i : ℕ,
      (vidcap_init_from table i id).retcode
        = expected_retcode ((table.find? (fun e => e.id == id)).map
            vidcap_device_api.init_outcome) ∧
      ((vidcap_init_from table i id).slot.isSome
        ↔ (vidcap_init_from table i id).retcode = 0) ∧
      ((vidcap_init_from table i id).retcode ≠ 0 →
        (vidcap_init_from table i id).slot = none ∧
        (vidcap_init_from table i id).wrappers_allocated
          = (vidcap_init_from table i id).wrappers_freed) := by
  induction table with
  | nil =>
    intro i
    refine ⟨rfl, by simp [vidcap_init_from], fun _ => ⟨rfl, rfl⟩⟩
  | cons e rest ih =>
    intro i
    by_cases hid : e.id = id
    · have hfind : (e :: rest).find? (fun e => e.id == id) = some e := by
        simp [List.find?, hid]
      cases ho : e.init_outcome <;>
        simp [vidcap_init_from, hid, hfind, expected_retcode, ho]
    · have hbeq : (e.id == id) = false := beq_eq_false_iff_ne.mpr hid
      have hfind : (e :: rest).find? (fun e => e.id == id)
          = rest.find? (fun e => e.id == id) := by
        simp [List.find?, hbeq]
      have hstep : vidcap_init_from (e :: rest) i id
          = vidcap_init_from rest (i + 1) id := by
        simp [vidcap_init_from, hid]
      rw [hstep, hfind]
      exact ih (i + 1)

/-- C3: vidcap_init returns 0 (OK) and writes the caller's slot exactly when
the matched backend's init produced a real state, returns 1 (NOERR) without a
handle when it returned the noerr sentinel, returns -1 (FAIL) without a
handle when it returned NULL, and returns -1 with the slot untouched for
every identity not present in the table. -/
theorem C3_init_tristate (table : List vidcap_device_api) (id : ℤ) :
    ((vidcap_init table id).retcode
      = expected_retcode ((table.find? (fun e => e.id == id)).map
          vidcap_device_api.init_outcome)) ∧
    ((vidcap_init table id).slot.isSome ↔ (vidcap_init table id).retcode = 0) ∧
    (table.find? (fun e => e.id == id) = none →
        (vidcap_init table id).retcode = -1 ∧ (vidcap_init table id).slot = none) := by
  obtain ⟨h1, h2, h3⟩ := vidcap_init_from_spec table id 0
  refine ⟨h1, h2, fun hnone => ?_⟩
  have hr : (vidcap_init_from table 0 id).retcode = -1 := by
    rw [h1, hnone]
    rfl
  exact ⟨hr, (h3 (by rw [hr]; decide)).1⟩

/-- C10: on every non-OK return of vidcap_init (unknown identity, func_init
returning NULL, or func_init returning the noerr sentinel) the caller's slot
is never written and every malloc'ed handle wrapper has been freed. -/
theorem C10_init_no_write_on_failure (table : List vidcap_device_api) (id : ℤ)
    (h : (vidcap_init table id).retcode ≠ 0) :
    (vidcap_init table id).slot = none ∧
    (vidcap_init table id).wrappers_allocated = (vidcap_init table id).wrappers_freed :=
  (vidcap_init_from_spec table id 0).2.2 h

/-- Concrete one-row table whose backend init returns the noerr sentinel. -/
def c10_table : List vidcap_device_api :=
  [{ id := 7, init_outcome := .noerr_sentinel }]

theorem C10_init_no_write_on_failure_witness :
    (vidcap_init c10_table 7).slot = none ∧
    (vidcap_init c10_table 7).wrappers_allocated
      = (vidcap_init c10_table 7).wrappers_freed :=
  C10_init_no_write_on_failure c10_table 7 (by decide)

theorem C3_init_tristate_witness :
    (vidcap_init c10_table 99).retcode = -1 ∧ (vidcap_init c10_table 99).slot = none :=
  (C3_init_tristate c10_table 99).2.2 rfl

/-- Process-wide Device Registry state (video_capture.c lines 310-311):
the populated prefix of `available_devices`; `available_device_count` is its
length.  Descriptors are opaque ids of the non-NULL probe results. -/
structure RegistryState where
  available_devices : List ℕ
deriving DecidableEq

/-- vidcap_init_devices (video_capture.c lines 345-377): asserts
`available_device_count == 0` (abort — modelled as none — when the registry
is already populated), then appends each successful probe result in table
order.  The probe outcomes of the (external) backends are the `probes`
argument, none meaning the probe returned NULL and is skipped silently. -/
def vidcap_init_devices (probes : List (Option ℕ)) (st : RegistryState) :
    Option RegistryState :=
  if st.available_devices.length ≠ 0 then none
  else some ⟨probes.filterMap id⟩

/-- vidcap_free_devices (video_capture.c lines 379-388). -/
def vidcap_free_devices (_st : RegistryState) : RegistryState := ⟨[]⟩

/-- Outcome of a vidcap_get_device_details call. -/
inductive DetailsOutcome where
  | ok (d : ℕ)
  | assert_fail
  | oob_read
deriving DecidableEq

/-- vidcap_get_device_details (video_capture.c lines 395-401): the first
assert checks only `index < available_device_count` for the signed `int`
index; for a non-negative in-range index the registered descriptor is
non-NULL, so the second assert passes and the descriptor is returned; for a
negative index the first assert passes and `available_devices[index]` is an
out-of-bounds read — undefined behavior, not an assertion failure. -/
def vidcap_get_device_details (st : RegistryState) (index : ℤ) : DetailsOutcome :=
  if (st.available_devices.length : ℤ) ≤ index then .assert_fail
  else if index < 0 then .oob_read
  else
    match st.available_devices.get? index.toNat with
    | some d => .ok d
    | none => .assert_fail

/-- vidcap_done entry check (video_capture.c lines 440-445):
`assert(state->magic == VIDCAP_MAGIC)` guards the dispatch through
`state->index`; none models the assertion failure. -/
def vidcap_done (h : vidcap) : Option ℕ :=
  if h.magic = VIDCAP_MAGIC then some h.index else none

/-- vidcap_grab entry check (video_capture.c lines 447-451), same guard. -/
def vidcap_grab_dispatch (h : vidcap) : Option ℕ :=
  if h.magic = VIDCAP_MAGIC then some h.index else none

/-- Registry with exactly one registered device. -/
def c8_registry : RegistryState := ⟨[42]⟩

/-- C8 counterexample: index -1 lies outside [0, count) yet passes the only
checked assertion (`index < available_device_count`) and reaches an
out-of-bounds array read instead of failing an assertion; moreover a second
vidcap_init_devices call does not fail the assertion in a run where the
first call registered no device (all probes returned NULL). -/
theorem C8_misuse_counterexample :
    vidcap_get_device_details c8_registry (-1) = .oob_read ∧
    (DetailsOutcome.oob_read ≠ DetailsOutcome.assert_fail) ∧
    vidcap_init_devices [none, none] ⟨[]⟩ = some ⟨[]⟩ ∧
    vidcap_init_devices [none, none] ⟨[]⟩ ≠ none := by
  refine ⟨rfl, by simp, rfl, by simp [vidcap_init_devices]⟩

/-- C8 amended: a second probe pass without teardown fails the
`available_device_count == 0` assertion whenever the first pass registered at
least one device; an index at or above the device count fails the first
assertion of vidcap_get_device_details, while a negative index passes it and
performs an out-of-bounds read; dispatching done or grab on a handle whose
integrity tag differs from VIDCAP_MAGIC fails the magic assertion. -/
theorem C8_misuse_aborts (probes : List (Option ℕ)) (st : RegistryState)
    (index : ℤ) (h : vidcap) :
    (st.available_devices ≠ [] → vidcap_init_devices probes st = none) ∧
    ((st.available_devices.length : ℤ) ≤ index →
        vidcap_get_device_details st index = .assert_fail) ∧
    (index < 0 → index < (st.available_devices.length : ℤ) →
        vidcap_get_device_details st index = .oob_read) ∧
    (h.magic ≠ VIDCAP_MAGIC → vidcap_done h = none ∧ vidcap_grab_dispatch h = none) := by
  refine ⟨?_, ?_, ?_, ?_⟩
  · intro hne
    have : st.available_devices.length ≠ 0 := by
      simpa [List.length_eq_zero] using hne
    simp [vidcap_init_devices, this]
  · intro hle
    simp [vidcap_get_device_details, hle]
  · intro hneg hlt
    rw [vidcap_get_device_details, if_neg (by omega), if_pos hneg]
  · intro hm
    exact ⟨by simp [vidcap_done, hm], by simp [vidcap_grab_dispatch, hm]⟩

/-- Handle with a corrupted integrity tag. -/
def c8_bad_handle : vidcap := { state := 0, index := 0, magic := 0xdeadbeef }

theorem C8_misuse_aborts_witness :
    vidcap_init_devices [some 42] c8_registry = none ∧
    vidcap_get_device_details c8_registry 1 = .assert_fail ∧
    vidcap_get_device_details c8_registry (-1) = .oob_read ∧
    vidcap_done c8_bad_handle = none ∧
    vidcap_grab_dispatch c8_bad_handle = none := by
  obtain ⟨h1, h2, h3, h4⟩ := C8_misuse_aborts [some 42] c8_registry 1 c8_bad_handle
  obtain ⟨h1', h2', h3', h4'⟩ := C8_misuse_aborts [some 42] c8_registry (-1) c8_bad_handle
  exact ⟨h1 (by simp [c8_registry]), h2 (by decide), h3' (by decide) (by decide),
    (h4 (by decide)).1, (h4 (by decide)).2⟩

end UltraGrid
